import Mathlib

/-!
Verification of the composition root of go-evepraisal (`src/evepraisal/app.go`)
against its natural-language specification.

The only source file available is `app.go` (the composition root `appMain` and
`mustStartServers`).  Components that live in other packages of the repository
(the multi-parser dispatch loop of `evepraisal.NewContextMultiParser`, the
refresh loop of `staticdump.NewStaticFetcher`) are modelled from the spec and
marked as such in their doc comments.  Everything that `app.go` itself decides
(the parser registration order, the refresh callback body, the defer/cleanup
discipline, the shutdown-context construction, the listener start logic) is
embedded directly from the source.
-/

namespace Evepraisal

/-! ## Reference-data snapshots

A `Snapshot` models one generation of the reference catalog (`typedb.TypeDB`):
an immutable value carrying a generation number and a catalog.  Immutability is
inherent in the embedding: a `Snapshot` is a pure value, so any holder of one
sees a single consistent catalog. -/

structure Snapshot where
  gen : Nat
  catalog : List (Nat × String)
deriving Repr, DecidableEq

/-! ## The classification dispatcher

Modelled from the spec: the dispatch loop of `evepraisal.NewContextMultiParser`
is not under `src/`; only its registration site (app.go lines 106-124) is.
Spec 4.1: "iterate the registered Recognizer sequence in fixed registration
order; invoke each with (rawText, snapshot); on the first Recognizer reporting
recognized=true, stop and return its items tagged with its identity". -/

structure Recognizer where
  ident : String
  attempt : String → Snapshot → List String × Bool

inductive DispatchResult where
  | Recognized (items : List String) (ident : String)
  | Unrecognized
deriving Repr, DecidableEq

/-- Modelled from the spec: the ordered first-match dispatch loop of the
multi-parser (package `evepraisal`, not under `src/`).  Tries recognizers in
registration order and returns the first success. -/
def dispatch (rs : List Recognizer) (text : String) (snap : Snapshot) : DispatchResult :=
  match rs with
  | [] => DispatchResult.Unrecognized
  | r :: rest =>
      let res := r.attempt text snap
      if res.2 then DispatchResult.Recognized res.1 r.ident
      else dispatch rest text snap

/-- Modelled from the spec: `classify` reads the current snapshot reference
exactly once at the start of the call and runs the dispatcher with it
(spec 4.1).  The recognizer chain in app.go registers the fallback heuristic
recognizer last, so classification is dispatch over `specific ++ [fallback]`. -/
def classify (specific : List Recognizer) (fallback : Recognizer)
    (text : String) (snap : Snapshot) : DispatchResult :=
  dispatch (specific ++ [fallback]) text snap

/-- The parser registration order from app.go lines 106-124, as written in the
source list literal: thirteen format parsers, then the context listing parser,
then the heuristic (fallback) parser last. -/
def registeredParserIdents : List String :=
  ["ParseKillmail", "ParseEFT", "ParseFitting", "ParseLootHistory", "ParsePI",
   "ParseViewContents", "ParseWallet", "ParseSurveyScan", "ParseContract",
   "ParseAssets", "ParseIndustry", "ParseCargoScan", "ParseDScan",
   "ContextListingParser", "HeuristicParser"]

lemma dispatch_cons_matched (r : Recognizer) (rest : List Recognizer)
    (text : String) (snap : Snapshot) (h : (r.attempt text snap).2 = true) :
    dispatch (r :: rest) text snap =
      DispatchResult.Recognized (r.attempt text snap).1 r.ident := by
  simp [dispatch, h]

lemma dispatch_cons_declined (r : Recognizer) (rest : List Recognizer)
    (text : String) (snap : Snapshot) (h : (r.attempt text snap).2 = false) :
    dispatch (r :: rest) text snap = dispatch rest text snap := by
  simp [dispatch, h]

lemma dispatch_append_declined (pre rest : List Recognizer)
    (text : String) (snap : Snapshot)
    (h : ∀ r ∈ pre, (r.attempt text snap).2 = false) :
    dispatch (pre ++ rest) text snap = dispatch rest text snap := by
  induction pre with
  | nil => rfl
  | cons r pre ih =>
      rw [List.cons_append, dispatch_cons_declined r _ text snap (h r (by simp))]
      exact ih (fun r hr => h r (by simp [hr]))

end Evepraisal

namespace Evepraisal

/-- C4 helper: the dispatcher never returns `Unrecognized` when some recognizer
in the chain matches. -/
lemma dispatch_ne_unrecognized (rs : List Recognizer) (text : String)
    (snap : Snapshot) (r : Recognizer) (hr : r ∈ rs)
    (hm : (r.attempt text snap).2 = true) :
    dispatch rs text snap ≠ DispatchResult.Unrecognized := by
  induction rs with
  | nil => cases hr
  | cons r0 rest ih =>
      by_cases h0 : (r0.attempt text snap).2 = true
      · rw [dispatch_cons_matched r0 rest text snap h0]
        simp
      · rw [dispatch_cons_declined r0 rest text snap (by simpa using h0)]
        rcases List.mem_cons.mp hr with h | h
        · exact absurd (h ▸ hm) h0
        · exact ih h

/-- C3: since the dispatcher returns the first match and app.go registers the
heuristic fallback last, classify returns `Recognized` for every input string
whenever the fallback honours its convention of always matching. -/
theorem classify_total (specific : List Recognizer) (fallback : Recognizer)
    (text : String) (snap : Snapshot)
    (hfb : ∀ t s, (fallback.attempt t s).2 = true) :
    classify specific fallback text snap ≠ DispatchResult.Unrecognized := by
  unfold classify
  exact dispatch_ne_unrecognized _ text snap fallback (by simp) (hfb text snap)

/-- C3 witness: with zero specific recognizers and the trivial fallback,
classify of the empty string still recognizes. -/
theorem classify_total_witness :
    classify [] ⟨"HeuristicParser", fun _ _ => ([], true)⟩ "" ⟨0, []⟩ ≠
      DispatchResult.Unrecognized :=
  classify_total [] ⟨"HeuristicParser", fun _ _ => ([], true)⟩ "" ⟨0, []⟩
    (fun _ _ => rfl)

/-- C4: first-match-wins in registration order.  If every recognizer registered
before `r` declines and `r` matches, the dispatch result is `r`'s items tagged
with `r`'s identity, regardless of any later recognizer (in particular a
later-registered one that would also match). -/
theorem dispatch_first_match_wins (pre post : List Recognizer) (r : Recognizer)
    (text : String) (snap : Snapshot)
    (hpre : ∀ q ∈ pre, (q.attempt text snap).2 = false)
    (hr : (r.attempt text snap).2 = true) :
    dispatch (pre ++ r :: post) text snap =
      DispatchResult.Recognized (r.attempt text snap).1 r.ident := by
  rw [dispatch_append_declined pre (r :: post) text snap hpre]
  exact dispatch_cons_matched r post text snap hr

/-- C4 witness: two stub recognizers both match the same input but return
different items; the earlier-registered one's items are returned. -/
theorem dispatch_first_match_wins_witness :
    dispatch [⟨"early", fun _ _ => (["a"], true)⟩,
              ⟨"late", fun _ _ => (["b"], true)⟩] "x" ⟨0, []⟩ =
      DispatchResult.Recognized ["a"] "early" :=
  dispatch_first_match_wins [] [⟨"late", fun _ _ => (["b"], true)⟩]
    ⟨"early", fun _ _ => (["a"], true)⟩ "x" ⟨0, []⟩ (by simp) rfl

/-! ## The hot-swap refresh callback

Embedded from app.go lines 103-131: the callback passed to
`staticdump.NewStaticFetcher` runs, in order,
  1. `oldTypeDB := app.TypeDB`          (read the old reference into a local)
  2. `app.TypeDB = typeDB`              (install the new snapshot)
  3. `app.Parser = NewContextMultiParser(typeDB, ...)`  (rebuild the chain
                                         bound to the same new snapshot)
  4. `if oldTypeDB != nil { oldTypeDB.Close() }`        (close the old one)
Each Go statement is one atomic step of the embedding; interleaved readers may
observe the shared `app` state between any two steps. -/

structure AppState where
  typeDB : Option Snapshot
  parserDB : Option Snapshot
  closedGens : List Nat
deriving Repr, DecidableEq

inductive CbStep where
  | readOld | installDB | rebuildParser | closeOld
deriving Repr, DecidableEq

/-- The statement sequence of the refresh callback, app.go lines 104-130. -/
def cbProgram : List CbStep :=
  [CbStep.readOld, CbStep.installDB, CbStep.rebuildParser, CbStep.closeOld]

/-- One atomic step of the callback: the pair is (shared app state, the
callback's local variable `oldTypeDB`). -/
def cbStepExec (new : Snapshot) (step : CbStep) (st : AppState × Option Snapshot) :
    AppState × Option Snapshot :=
  match step with
  | CbStep.readOld => (st.1, st.1.typeDB)
  | CbStep.installDB => ({ st.1 with typeDB := some new }, st.2)
  | CbStep.rebuildParser => ({ st.1 with parserDB := some new }, st.2)
  | CbStep.closeOld =>
      match st.2 with
      | some old => ({ st.1 with closedGens := old.gen :: st.1.closedGens }, st.2)
      | none => st

/-- The shared state after the first `k` statements of the callback have run. -/
def execCbPrefix (new : Snapshot) (s : AppState) (k : Nat) : AppState × Option Snapshot :=
  (cbProgram.take k).foldl (fun acc step => cbStepExec new step acc) (s, none)

/-- The refresh callback run to completion (all four statements). -/
def refreshCallback (new : Snapshot) (s : AppState) : AppState :=
  (execCbPrefix new s cbProgram.length).1

/-- A classify request captures the current snapshot reference exactly once at
the start of the call (spec 4.1); this is the value it reads. -/
def captureSnapshot (s : AppState) : Option Snapshot := s.typeDB

/-- C10: the refresh callback installs the new TypeDB, then rebuilds the parser
chain bound to that same TypeDB, and only afterwards closes the previous one:
after the first three statements the parser is already bound to the installed
snapshot and nothing new is closed; after the callback returns, the parser is
bound to the current TypeDB and exactly the previous generation was closed. -/
theorem refreshCallback_parser_bound_to_current (s : AppState) (old new : Snapshot)
    (h : s.typeDB = some old) :
    (execCbPrefix new s 3).1 =
      { typeDB := some new, parserDB := some new, closedGens := s.closedGens } ∧
    refreshCallback new s =
      { typeDB := some new, parserDB := some new,
        closedGens := old.gen :: s.closedGens } := by
  obtain ⟨tdb, pdb, cg⟩ := s
  obtain rfl : tdb = some old := h
  constructor <;> rfl

/-- C10 witness: concrete run with generation 0 installed and generation 1
arriving. -/
theorem refreshCallback_parser_bound_to_current_witness :
    (execCbPrefix ⟨1, []⟩ ⟨some ⟨0, []⟩, some ⟨0, []⟩, []⟩ 3).1 =
      { typeDB := some ⟨1, []⟩, parserDB := some ⟨1, []⟩, closedGens := [] } ∧
    refreshCallback ⟨1, []⟩ ⟨some ⟨0, []⟩, some ⟨0, []⟩, []⟩ =
      { typeDB := some ⟨1, []⟩, parserDB := some ⟨1, []⟩, closedGens := [0] } :=
  refreshCallback_parser_bound_to_current ⟨some ⟨0, []⟩, some ⟨0, []⟩, []⟩
    ⟨0, []⟩ ⟨1, []⟩ rfl

/-- C2: the swap is all-or-nothing for readers.  At every interleaving point of
the callback, a classify call that reads the current snapshot reference (once,
at its start) obtains either the complete old snapshot or the complete new one
— the reference is replaced by the single assignment of statement 2, never
mutated in place, so no mix of generations is observable. -/
theorem swap_atomic (s : AppState) (new : Snapshot) (k : Nat) :
    captureSnapshot (execCbPrefix new s k).1 = captureSnapshot s ∨
    captureSnapshot (execCbPrefix new s k).1 = some new := by
  match k with
  | 0 => left; rfl
  | 1 => left; rfl
  | 2 => right; rfl
  | 3 => right; rfl
  | (n + 4) =>
      right
      obtain ⟨tdb, pdb, cg⟩ := s
      show captureSnapshot (execCbPrefix new ⟨tdb, pdb, cg⟩ (n + 4)).1 = some new
      have : cbProgram.take (n + 4) = cbProgram := by
        simp [cbProgram]
      rw [execCbPrefix, this]
      cases tdb <;> rfl

/-- C1 (failing input, from the source): the callback closes the old TypeDB
immediately after rebuilding the parser, without waiting for in-flight
requests.  A request that captured generation 0 just before the callback runs
and is still in flight when the callback completes holds a snapshot whose
generation is in the closed set: it observes a released snapshot. -/
theorem inflight_request_observes_closed_snapshot :
    captureSnapshot ⟨some ⟨0, []⟩, some ⟨0, []⟩, []⟩ = some ⟨0, []⟩ ∧
    (0 : Nat) ∈ (refreshCallback ⟨1, []⟩ ⟨some ⟨0, []⟩, some ⟨0, []⟩, []⟩).closedGens := by
  constructor
  · rfl
  · show (0 : Nat) ∈ [0]
    simp

/-! ## The refresh cycle of the static fetcher -/

inductive BuildResult where
  | built (snap : Snapshot)
  | buildFailed (msg : String)
deriving Repr

structure ServiceState where
  app : AppState
  running : Bool
  reportedErrors : List String
deriving Repr

/-- The generation number of the currently installed snapshot. -/
def currentGen (st : ServiceState) : Option Nat := st.app.typeDB.map Snapshot.gen

/-- Modelled from the spec: the refresh loop of `staticdump.NewStaticFetcher`
(package `staticdump`, not under `src/`).  Spec 4.2: on a successful build it
installs the new snapshot via the callback; "if building the new Snapshot
fails (e.g., malformed source data), the install is skipped entirely; the
previous Snapshot remains current; the failure is reported but is not fatal to
the running service." -/
def refreshCycle (b : BuildResult) (st : ServiceState) : ServiceState :=
  match b with
  | BuildResult.built snap => { st with app := refreshCallback snap st.app }
  | BuildResult.buildFailed m => { st with reportedErrors := m :: st.reportedErrors }

/-- C8: when the build fails, the install step is skipped entirely: the app
state (hence the current snapshot generation) is unchanged, the failure is
reported, and the service keeps running. -/
theorem refreshCycle_build_failure_keeps_current (m : String) (st : ServiceState) :
    (refreshCycle (BuildResult.buildFailed m) st).app = st.app ∧
    currentGen (refreshCycle (BuildResult.buildFailed m) st) = currentGen st ∧
    (refreshCycle (BuildResult.buildFailed m) st).running = st.running ∧
    m ∈ (refreshCycle (BuildResult.buildFailed m) st).reportedErrors := by
  refine ⟨rfl, rfl, rfl, ?_⟩
  show m ∈ m :: st.reportedErrors
  simp

/-! ## Resource acquisition and release discipline

Embedded from app.go lines 35-197.  On the normal path (no web listener
configured, so no per-server defers), `appMain` acquires resources in source
order and pushes one deferred cleanup block per acquisition; Go runs deferred
blocks in reverse push order when `appMain` returns.  The source pushes a
second `priceDB.Close()` defer at lines 57-62, duplicating the one at lines
39-44. -/

inductive Resource where
  | priceDB | httpCache | priceFetcher | appraisalDB | staticFetcher
  | typeDB | mgmtServer
deriving Repr, DecidableEq

/-- Acquisition order on the normal path of appMain (lines 35, 46, 64, 76,
103, 193). -/
def appMainAcquisitionOrder : List Resource :=
  [Resource.priceDB, Resource.httpCache, Resource.priceFetcher,
   Resource.appraisalDB, Resource.staticFetcher, Resource.mgmtServer]

/-- The deferred cleanup blocks in push order (lines 39, 50, 57, 68, 80, 135,
197); the block at line 135 closes both the static fetcher and the current
TypeDB, and the block at line 57 closes priceDB a second time. -/
def appMainDeferStack : List (List Resource) :=
  [[Resource.priceDB], [Resource.httpCache], [Resource.priceDB],
   [Resource.priceFetcher], [Resource.appraisalDB],
   [Resource.staticFetcher, Resource.typeDB], [Resource.mgmtServer]]

/-- The releases appMain actually performs on a normal return: deferred blocks
run in reverse push order. -/
def appMainReleaseOrder : List Resource := appMainDeferStack.reverse.flatten

/-- C7 (failing input, from the source): on the normal exit path, priceDB is
released twice — the duplicated defer at lines 57-62 repeats the close pushed
at lines 39-44 — and the release sequence is therefore not the reverse of the
acquisition sequence (the second priceDB close runs between the priceFetcher
close and the httpCache close). -/
theorem priceDB_released_twice :
    appMainReleaseOrder.count Resource.priceDB = 2 ∧
    appMainReleaseOrder ≠ appMainAcquisitionOrder.reverse := by
  decide

/-! ## Listener startup and serve failures

Embedded from `mustStartServers` (app.go lines 211-261) and the serve
goroutines (lines 230-237, 250-257, 198-205): a web listener is started only
when its address setting is non-empty; each started listener's serve loop
calls `log.Fatalf` — which terminates the whole process — on any error other
than `http.ErrServerClosed`.  No listener carries a required/optional flag. -/

structure ListenerConfig where
  https_addr : String
  http_addr : String
deriving Repr, DecidableEq

inductive ServeOutcome where
  | serving
  | closed
  | failed (msg : String)
deriving Repr, DecidableEq

/-- Whether one serve goroutine reaches its `log.Fatalf` call: any error other
than `http.ErrServerClosed` (modelled by `closed`) is fatal. -/
def serveGoroutineFatal : ServeOutcome → Bool
  | ServeOutcome.failed _ => true
  | _ => false

/-- The listeners `mustStartServers` actually starts: each web listener is
skipped iff its address is unconfigured (empty). -/
def startedListeners (cfg : ListenerConfig) : List String :=
  (if cfg.https_addr ≠ "" then ["https"] else []) ++
    (if cfg.http_addr ≠ "" then ["http"] else [])

/-- Whether the whole process is terminated by a serve failure: the https and
http goroutines run only when configured; the management server goroutine
(lines 198-205) always runs. -/
def appServeFatal (cfg : ListenerConfig)
    (httpsOut httpOut mgmtOut : ServeOutcome) : Bool :=
  (cfg.https_addr != "" && serveGoroutineFatal httpsOut) ||
  (cfg.http_addr != "" && serveGoroutineFatal httpOut) ||
  serveGoroutineFatal mgmtOut

/-- C9 counterexample: both web listeners are configured, neither is marked
required anywhere (no such flag exists in the code), and the http listener
fails to serve — yet the whole process is terminated by `log.Fatalf`, so the
failed listener is not skipped and the https listener does not continue to
serve. -/
theorem listener_failure_fatal_counterexample :
    appServeFatal ⟨"fe443", "fe80"⟩ ServeOutcome.serving
      (ServeOutcome.failed "listen: address already in use")
      ServeOutcome.serving = true := by
  decide

/-- C9 amended: a listener is skipped only by leaving its address
unconfigured; every configured listener, and the management listener
unconditionally, is fatal to the whole process when its serve loop fails with
anything other than ErrServerClosed. -/
theorem configured_listener_failure_fatal (cfg : ListenerConfig) (msg : String)
    (o1 o2 : ServeOutcome) :
    (cfg.https_addr ≠ "" → appServeFatal cfg (ServeOutcome.failed msg) o1 o2 = true) ∧
    (cfg.http_addr ≠ "" → appServeFatal cfg o1 (ServeOutcome.failed msg) o2 = true) ∧
    appServeFatal cfg o1 o2 (ServeOutcome.failed msg) = true := by
  refine ⟨fun h => ?_, fun h => ?_, ?_⟩ <;>
    simp [appServeFatal, serveGoroutineFatal, *]

/-- C9 amended witness: a configured http listener whose bind fails kills the
process. -/
theorem configured_listener_failure_fatal_witness :
    appServeFatal ⟨"", "fe80"⟩ ServeOutcome.serving
      (ServeOutcome.failed "bind") ServeOutcome.serving = true :=
  (configured_listener_failure_fatal ⟨"", "fe80"⟩ "bind"
    ServeOutcome.serving ServeOutcome.serving).2.1 (by decide)

/-! ## Shutdown timing

Embedded from app.go lines 181-188 and 207: for each started server, a context
with a five-second timeout is created at startup — in the loop that runs
before `<-stop` blocks — and a goroutine cancels that context ten seconds
after startup, so the context is done five seconds after startup regardless of
when the termination signal arrives.  `server.Shutdown(stopCtx)` is deferred,
so the Shutdown calls run sequentially, in reverse start order, after the
signal is received.  Times are in seconds, absolute from process start. -/

/-- The absolute time at which a server's shutdown context is done: the
five-second `context.WithTimeout` deadline (line 182) or the explicit cancel
ten seconds after startup (lines 184-187), whichever is earlier.  `t0` is the
time at which appMain ran the loop (startup). -/
def shutdownCtxDoneTime (t0 : Nat) : Nat := min (t0 + 5) (t0 + 10)

/-- Modelled from the documented contract of net/http Server.Shutdown
(standard library, not part of this repository): called at `callT`, it waits
for in-flight requests to finish (at absolute time `drainT`) or for the
context to be done, whichever comes first, but cannot return before it is
called. -/
def shutdownReturnTime (callT ctxDone drainT : Nat) : Nat :=
  max callT (min drainT ctxDone)

/-- An in-flight request finishing at `drainT` completes normally iff Shutdown
is still draining at that time; otherwise its connection is forcibly closed
when Shutdown returns and the process exits. -/
def requestCompletesNormally (callT ctxDone drainT : Nat) : Bool :=
  drainT ≤ shutdownReturnTime callT ctxDone drainT

/-- C5 (failing input, from the source): the shutdown context is created at
startup, not at signal receipt.  With startup at t=0 and the termination
signal at t=100, an in-flight request needing one more second (well within the
five-second grace duration) is forcibly terminated immediately, because the
context expired at t=5, ninety-five seconds before the signal. -/
theorem shutdown_grace_anchored_at_startup :
    requestCompletesNormally 100 (shutdownCtxDoneTime 0) 101 = false ∧
    101 ≤ 100 + 5 := by
  decide

/-- The deferred Shutdown calls run one after another: each call starts when
the previous returns (`callT` advances to the previous return time), and each
returns per `shutdownReturnTime` with its own drain time against the shared
absolute context deadline.  Returns the (start, return) times per server. -/
def sequentialShutdown (ctxDone : Nat) : Nat → List Nat → List (Nat × Nat)
  | _, [] => []
  | callT, d :: ds =>
      (callT, shutdownReturnTime callT ctxDone d) ::
        sequentialShutdown ctxDone (shutdownReturnTime callT ctxDone d) ds

/-- C6 counterexample: with the signal at t=0, a shared context deadline of
t=5, and two servers draining at t=3 and t=7, the second server's Shutdown
does not begin until t=3 — when the first returns — so the grace windows do
not run in parallel: the first listener's slow drain consumes the start of the
second listener's window. -/
theorem shutdown_sequential_not_parallel :
    (sequentialShutdown 5 0 [3, 7]).map Prod.fst = [0, 3] ∧
    ¬ ∀ p ∈ sequentialShutdown 5 0 [3, 7], p.1 = 0 := by
  decide

/-- C6 amended: the Shutdown calls run sequentially, so a slow listener delays
the start of later listeners' drains; but because every listener shares the
same absolute context deadline, every Shutdown call still returns no later
than max(signal time, context deadline) — sequential draining does not
accumulate the grace windows. -/
theorem sequentialShutdown_bounded (ctxDone : Nat) (ds : List Nat) (callT : Nat) :
    ((sequentialShutdown ctxDone callT ds).all
      fun p => decide (p.2 ≤ max callT ctxDone)) = true := by
  induction ds generalizing callT with
  | nil => rfl
  | cons d ds ih =>
      have hret : shutdownReturnTime callT ctxDone d ≤ max callT ctxDone :=
        max_le_max le_rfl (min_le_right d ctxDone)
      have hmax : max (shutdownReturnTime callT ctxDone d) ctxDone = max callT ctxDone := by
        rw [shutdownReturnTime, max_assoc, max_eq_right (min_le_right d ctxDone)]
      simp only [sequentialShutdown, List.all_cons, Bool.and_eq_true, decide_eq_true_eq]
      refine ⟨hret, ?_⟩
      have h := ih (shutdownReturnTime callT ctxDone d)
      rw [hmax] at h
      exact h

end Evepraisal
